import Mathlib

set_option linter.unusedVariables false

/-!
Verification of the cloud-run-jobs-emulator execution core: a shallow
embedding of the in-memory job/execution store (`internal/state`), the
execution state machine, the subprocess and docker executors
(`internal/executor`), and the RunJob / CancelExecution / CreateJob
request handlers (`internal/server`).  External effects (spawning a
subprocess, the docker engine API, clocks, random ids) are passed in as
explicit parameters so that every handler is a pure function from its
inputs and the incoming store to its result and the outgoing store.
-/

namespace CloudRunJobsEmu

/-- Environment maps (Go `map[string]string`), modelled extensionally. -/
abbrev EnvMap := String → Option String

/-- The empty environment (Go `make(map[string]string)`). -/
def EnvMap.empty : EnvMap := fun _ => none

/-- Go map assignment `m[k] = v`. -/
def EnvMap.insert (m : EnvMap) (k v : String) : EnvMap :=
  fun x => if x = k then some v else m x

/-- Execution status enumeration from `internal/state` (part_003). -/
inductive ExecutionStatus where
  | pending
  | running
  | succeeded
  | failed
  | cancelled
deriving DecidableEq, Repr

/-- Go `ExecutionStatus.String()`. -/
def ExecutionStatus.toString : ExecutionStatus → String
  | .pending => "PENDING"
  | .running => "RUNNING"
  | .succeeded => "SUCCEEDED"
  | .failed => "FAILED"
  | .cancelled => "CANCELLED"

/-- A registered job (`state.Job`). -/
structure Job where
  name : String
  image : String
  command : List String
  env : EnvMap

/-- A single job execution (`state.Execution`).  Time is modelled as `Nat`;
the Go zero `time.Time` (unset completion) is `none`. -/
structure Execution where
  name : String
  job : Job
  status : ExecutionStatus
  startTime : Nat
  completionTime : Option Nat
  succeededCount : Nat
  failedCount : Nat
  errorMessage : String
  containerID : String

/-- The in-memory store (`state.Store`); both maps are keyed by full
resource name.  The Go mutex serialises access; the sequential model
makes each operation an atomic function on the store. -/
structure Store where
  jobs : String → Option Job
  executions : String → Option Execution

/-- Go `state.NewStore()`. -/
def Store.new : Store :=
  { jobs := fun _ => none, executions := fun _ => none }

/-- Go `Store.SaveJob`: insert or overwrite by full resource name. -/
def Store.saveJob (s : Store) (j : Job) : Store :=
  { s with jobs := fun n => if n = j.name then some j else s.jobs n }

/-- Go `Store.GetJob`: lookup or the Go error `job not found: <name>`. -/
def Store.getJob (s : Store) (name : String) : Except String Job :=
  match s.jobs name with
  | some j => .ok j
  | none => .error ("job not found: " ++ name)

/-- Go `Store.DeleteJob`: remove, or the Go error when the name is absent. -/
def Store.deleteJob (s : Store) (name : String) : Except String Store :=
  match s.jobs name with
  | some _ =>
      .ok { s with jobs := fun n => if n = name then none else s.jobs n }
  | none => .error ("job not found: " ++ name)

/-- Go `Store.SaveExecution`. -/
def Store.saveExecution (s : Store) (e : Execution) : Store :=
  { s with executions := fun n => if n = e.name then some e else s.executions n }

/-- Go `Store.GetExecution`. -/
def Store.getExecution (s : Store) (name : String) : Except String Execution :=
  match s.executions name with
  | some e => .ok e
  | none => .error ("execution not found: " ++ name)

/-- Go `Store.DeleteExecution`. -/
def Store.deleteExecution (s : Store) (name : String) : Except String Store :=
  match s.executions name with
  | some _ =>
      .ok { s with executions := fun n => if n = name then none else s.executions n }
  | none => .error ("execution not found: " ++ name)

/-- Outcome of `cmd.Run()` for the subprocess executor: success, or the
error string (spawn failure or nonzero exit). -/
def CmdRunResult := Except String Unit

/-- Go `SubprocessExecutor.Run` (subprocess.go): the execution-state effect of
one run task.  The spawned process itself is external; its outcome is the
`cmdResult` parameter, and `now` is the `time.Now()` read at completion. -/
def SubprocessExecutor.run (execution : Execution) (env : EnvMap) (now : Nat)
    (cmdResult : CmdRunResult) : Execution :=
  if execution.job.command = [] then
    { execution with
        status := .failed
        errorMessage := "no command specified"
        failedCount := 1
        completionTime := some now }
  else
    match cmdResult with
    | .error e =>
        { execution with
            status := .failed
            failedCount := 1
            errorMessage := e
            completionTime := some now }
    | .ok _ =>
        { execution with
            status := .succeeded
            succeededCount := 1
            completionTime := some now }

/-- Go `SubprocessExecutor.Cancel` (subprocess.go:54): always an error. -/
def SubprocessExecutor.cancel (_e : Execution) : Except String Unit :=
  .error "cancel not supported for subprocess executor"

/-- Outcome of `ContainerWait`'s select (docker.go:199-218): either an error
delivered on `errCh` (the docker client only ever sends non-nil errors
there) or the container's exit status code from `statusCh`. -/
inductive WaitOutcome where
  | waitErr (msg : String)
  | exited (code : Nat)

/-- The docker-engine responses consumed by one `DockerExecutor.Run` call:
create result (error or container id), start result, and wait outcome. -/
structure DockerBackend where
  createResult : Except String String
  startResult : Except String Unit
  waitOutcome : WaitOutcome

/-- Go `DockerExecutor.Run` (docker.go:140-228): the execution-state effect of
the container lifecycle.  Create failure and start failure mark `FAILED`
immediately; otherwise the wait outcome decides the terminal state.  Log
forwarding and container removal are external effects with no effect on
the execution's fields, so they do not appear in the state model. -/
def DockerExecutor.run (ex : Execution) (env : EnvMap) (b : DockerBackend)
    (now : Nat) : Execution :=
  match b.createResult with
  | .error e =>
      { ex with
          status := .failed
          errorMessage := "container create failed: " ++ e
          failedCount := 1
          completionTime := some now }
  | .ok cid =>
    let ex := { ex with containerID := cid }
    match b.startResult with
    | .error e =>
        { ex with
            status := .failed
            errorMessage := "container start failed: " ++ e
            failedCount := 1
            completionTime := some now }
    | .ok _ =>
      match b.waitOutcome with
      | .waitErr e =>
          { ex with
              status := .failed
              errorMessage := "container wait failed: " ++ e
              failedCount := 1
              completionTime := some now }
      | .exited code =>
          if code = 0 then
            { ex with
                status := .succeeded
                succeededCount := 1
                completionTime := some now }
          else
            { ex with
                status := .failed
                failedCount := 1
                errorMessage := "container exited with code " ++ toString code
                completionTime := some now }

/-- Go `DockerExecutor.Cancel` (docker.go:261-267): requires a recorded
container id; `stop` is the external `ContainerStop` call. -/
def DockerExecutor.cancel (stop : String → Except String Unit)
    (ex : Execution) : Except String Unit :=
  if ex.containerID = "" then
    .error ("no container ID for execution " ++ ex.name)
  else
    stop ex.containerID

/-- List of attached network names of an inspected container, in the
(Go map) iteration order the loops of `detectOwnNetwork` observe. -/
structure InspectInfo where
  networks : List String

/-- True for a network name that is not one of Docker's three built-in
defaults (docker.go:88). -/
def nonDefaultNet (n : String) : Bool :=
  !(n == "bridge" || n == "host" || n == "none")

/-- Go `detectOwnNetwork` (docker.go:67-105): read the own hostname, inspect
the container of that name, return the first attached non-default
network, else fall back to any attached network, else `""`.  The empty
string means detection failed (host networking).  `hostname` is
`os.Hostname` (`none` = error) and `inspect` is `ContainerInspect`
(`none` = error). -/
def detectOwnNetwork (hostname : Option String)
    (inspect : String → Option InspectInfo) : String :=
  match hostname with
  | none => ""
  | some h =>
    match inspect h with
    | none => ""
    | some info =>
      match info.networks.find? nonDefaultNet with
      | some n => n
      | none => info.networks.headD ""

/-- Go `resolveNetwork` (docker.go:52-61): `"host"` resolves to `""` (host
mode, per the `DockerExecutor.network` field comment), empty or `"auto"`
self-detects, anything else is used verbatim. -/
def resolveNetwork (hostname : Option String)
    (inspect : String → Option InspectInfo) (configured : String) : String :=
  if configured = "host" then ""
  else if configured = "" ∨ configured = "auto" then
    detectOwnNetwork hostname inspect
  else configured

/-- Go `runpb.EnvVar`: the `Values` oneof is `some v` when it is `Value v`;
`none` stands for an unset oneof or a `ValueSource`, on which the Go
getter `GetValue()` yields `""`. -/
structure EnvVarPb where
  name : String
  value? : Option String

/-- Go `EnvVar.GetValue()`. -/
def EnvVarPb.getValue (ev : EnvVarPb) : String := ev.value?.getD ""

/-- One `runpb.RunJobRequest_Overrides_ContainerOverride`: only its env
entries are read by `RunJob`. -/
structure ContainerOverridePb where
  env : List EnvVarPb

/-- Go `runpb.RunJobRequest_Overrides`. -/
structure RunJobOverrides where
  containerOverrides : List ContainerOverridePb

/-- Go `runpb.Container`: the fields `protoToJob` reads. -/
structure ContainerPb where
  image : String
  command : List String
  env : List EnvVarPb

/-- Go `runpb.TaskTemplate`: container list. -/
structure TaskTemplatePb where
  containers : List ContainerPb

/-- Go `runpb.ExecutionTemplate`: nested task template (nil-able). -/
structure ExecutionTemplatePb where
  template : Option TaskTemplatePb

/-- Go `runpb.Job` as consumed by `protoToJob` (nil-able template chain). -/
structure JobPb where
  template : Option ExecutionTemplatePb

/-- Condition state recorded on a terminal execution proto. -/
inductive ConditionState where
  | condSucceeded
  | condFailed
deriving DecidableEq, Repr

/-- Go `runpb.Execution` as produced by `executionToProto` (part_001). -/
structure ExecutionPb where
  name : String
  jobName : String
  reconciling : Bool
  succeededCount : Nat
  failedCount : Nat
  cancelledCount : Nat
  runningCount : Nat
  startTime : Nat
  completionTime : Option Nat
  conditions : List ConditionState

/-- Go `executionToProto` (part_001): counts, reconciling flag, optional
completion time (only when the Go `time.Time` is non-zero), and the
status-dependent condition.  A `CANCELLED` execution reports
`CancelledCount = 1` and a `FAILED` condition. -/
def executionToProto (e : Execution) : ExecutionPb :=
  let base : ExecutionPb :=
    { name := e.name
      jobName := e.job.name
      reconciling := e.status = .running
      succeededCount := e.succeededCount
      failedCount := e.failedCount
      cancelledCount := 0
      runningCount := 0
      startTime := e.startTime
      completionTime := e.completionTime
      conditions := [] }
  match e.status with
  | .running => { base with runningCount := 1 }
  | .succeeded => { base with conditions := [.condSucceeded] }
  | .failed => { base with conditions := [.condFailed] }
  | .cancelled => { base with cancelledCount := 1, conditions := [.condFailed] }
  | .pending => base

/-- Go `protoToJob` (part_001): name, first container's image/command, and the
default environment built from the container's env entries, skipping any
entry whose `GetValue()` is the empty string. -/
def protoToJob (name : String) (pb : JobPb) : Job :=
  let base : Job := { name := name, image := "", command := [], env := EnvMap.empty }
  match pb.template with
  | none => base
  | some t =>
    match t.template with
    | none => base
    | some tt =>
      match tt.containers with
      | [] => base
      | c :: _ =>
          { base with
              image := c.image
              command := c.command
              env := c.env.foldl
                (fun m ev => if ev.getValue != "" then m.insert ev.name ev.getValue else m)
                EnvMap.empty }

/-- gRPC status codes used by the handlers. -/
inductive RpcCode where
  | notFound
  | alreadyExists
  | failedPrecondition
  | internal
deriving DecidableEq, Repr

/-- A gRPC status error as returned by `status.Errorf`. -/
structure RpcError where
  code : RpcCode
  msg : String
deriving DecidableEq, Repr

/-- Go `longrunningpb.Operation` as the handlers build it.  `RunJob` returns
`done = false` with the execution snapshot as metadata;
`CancelExecution` returns `done = true` with the updated execution proto
as response.  Job-proto payloads (CreateJob's response) are marshalling
detail outside this model and are left as `none`. -/
structure OperationPb where
  name : String
  done : Bool
  metadata : Option ExecutionPb
  response : Option ExecutionPb

/-- The env merge inside `JobsServer.RunJob` (part_001:45-56): copy the
job defaults, then assign every override entry (each container override's
env list, in order) into the map. -/
def mergeRunEnv (jobEnv : EnvMap) (overrides : Option RunJobOverrides) : EnvMap :=
  match overrides with
  | none => jobEnv
  | some o =>
      o.containerOverrides.foldl
        (fun m co => co.env.foldl (fun m ev => m.insert ev.name ev.getValue) m)
        jobEnv

/-- The detached run task `go s.executor.Run(exec, env)`: recorded as data
(the execution snapshot and merged env handed to the executor), never
evaluated by the handler — `RunJob` does not wait for it. -/
structure SpawnedRun where
  execution : Execution
  env : EnvMap

/-- Go `JobsServer.RunJob` (part_001:29-77): look up the job (NotFound when
absent), allocate an execution named `<job>/executions/<id>` with status
`RUNNING`, start time `now`, zero counters and unset completion time,
merge the env, persist the execution, record the detached run task, and
return a `done = false` operation carrying the pre-completion snapshot.
`executionID` stands for the random 8-char uuid prefix. -/
def runJob (s : Store) (reqName : String) (overrides : Option RunJobOverrides)
    (executionID : String) (now : Nat) :
    Except RpcError OperationPb × Store × Option SpawnedRun :=
  match s.getJob reqName with
  | .error _ => (.error ⟨.notFound, "job not found: " ++ reqName⟩, s, none)
  | .ok job =>
    let ex : Execution :=
      { name := reqName ++ "/executions/" ++ executionID
        job := job
        status := .running
        startTime := now
        completionTime := none
        succeededCount := 0
        failedCount := 0
        errorMessage := ""
        containerID := "" }
    let env := mergeRunEnv job.env overrides
    let s2 := s.saveExecution ex
    (.ok { name := ex.name, done := false, metadata := some (executionToProto ex), response := none },
      s2, some ⟨ex, env⟩)

/-- Go `JobsServer.CreateJob` (part_001:90-114): `AlreadyExists` when the name
is taken, otherwise store `protoToJob` and return a done operation. -/
def createJob (s : Store) (parent jobId : String) (pb : JobPb) :
    Except RpcError OperationPb × Store :=
  let name := parent ++ "/jobs/" ++ jobId
  match s.jobs name with
  | some _ => (.error ⟨.alreadyExists, "job already exists: " ++ name⟩, s)
  | none =>
    let job := protoToJob name pb
    (.ok { name := name, done := true, metadata := none, response := none },
      s.saveJob job)

/-- Go `ExecutionsServer.CancelExecution` (executions.go:73-103): NotFound
when the execution is absent; `FailedPrecondition` when it is not
`RUNNING`; otherwise call the executor's cancel — whose error is only
logged (`slog.Warn`), never surfaced — then mark the execution
`CANCELLED` with completion time `now` and return a done operation. -/
def cancelExecution (cancelFn : Execution → Except String Unit) (s : Store)
    (name : String) (now : Nat) : Except RpcError OperationPb × Store :=
  match s.executions name with
  | none => (.error ⟨.notFound, "execution not found: " ++ name⟩, s)
  | some ex =>
    if ex.status = .running then
      let cancelOutcome := cancelFn ex
      let ex2 := { ex with status := .cancelled, completionTime := some now }
      (.ok { name := name, done := true, metadata := none,
              response := some (executionToProto ex2) },
        s.saveExecution ex2)
    else
      (.error ⟨.failedPrecondition,
        "execution is not running: " ++ ex.status.toString⟩, s)

/-- Terminal statuses of the execution state machine (spec sec. 4.2). -/
def isTerminal : ExecutionStatus → Bool
  | .succeeded => true
  | .failed => true
  | .cancelled => true
  | .pending => false
  | .running => false

/-- The execution invariant of the spec's data model: once the status is
terminal, exactly one of the succeeded / failed / cancelled counters (as
reported by `executionToProto` — the cancelled counter exists only there)
equals 1, and the completion timestamp is set iff the status is
terminal. -/
def execInvariant (e : Execution) : Prop :=
  (isTerminal e.status = true →
    (executionToProto e).succeededCount + (executionToProto e).failedCount
      + (executionToProto e).cancelledCount = 1)
  ∧ (e.completionTime.isSome = true ↔ isTerminal e.status = true)

/-- All override env entries of a RunJob request, in the order the nested
loops of `RunJob` visit them. -/
def overrideEntries (o : RunJobOverrides) : List EnvVarPb :=
  o.containerOverrides.flatMap (fun co => co.env)

/-- The override entry whose assignment to key `k` survives the merge: the
last entry named `k` among the override entries. -/
def lastOverride (o : RunJobOverrides) (k : String) : Option EnvVarPb :=
  (overrideEntries o).reverse.find? (fun ev => ev.name == k)

/-- Sample job used by the concrete witnesses. -/
def sampleJob : Job :=
  { name := "projects/p/locations/r/jobs/echo-job"
    image := "busybox"
    command := ["echo", "hello"]
    env := EnvMap.empty }

/-- Sample running execution of `sampleJob`. -/
def sampleRunningExec : Execution :=
  { name := "projects/p/locations/r/jobs/echo-job/executions/abc12345"
    job := sampleJob
    status := .running
    startTime := 10
    completionTime := none
    succeededCount := 0
    failedCount := 0
    errorMessage := ""
    containerID := "" }

/-- Sample store holding `sampleJob` and the running `sampleRunningExec`. -/
def sampleStoreRunning : Store :=
  (Store.new.saveJob sampleJob).saveExecution sampleRunningExec

/-- Sample execution of `sampleJob` that already succeeded. -/
def sampleSucceededExec : Execution :=
  { name := "projects/p/locations/r/jobs/echo-job/executions/done00001"
    job := sampleJob
    status := .succeeded
    startTime := 10
    completionTime := some 20
    succeededCount := 1
    failedCount := 0
    errorMessage := ""
    containerID := "" }

/-- Sample store holding `sampleJob` and the finished `sampleSucceededExec`. -/
def sampleStoreSucceeded : Store :=
  (Store.new.saveJob sampleJob).saveExecution sampleSucceededExec

/-- Sample job whose command vector is empty. -/
def sampleEmptyCmdJob : Job :=
  { name := "projects/p/locations/r/jobs/no-cmd-job"
    image := "busybox"
    command := []
    env := EnvMap.empty }

/-- Sample running execution of the command-less job. -/
def sampleEmptyCmdExec : Execution :=
  { name := "projects/p/locations/r/jobs/no-cmd-job/executions/xyz00001"
    job := sampleEmptyCmdJob
    status := .running
    startTime := 10
    completionTime := none
    succeededCount := 0
    failedCount := 0
    errorMessage := ""
    containerID := "" }

/-- Sample docker backend behaviour: creation and start succeed, the
container exits with code 0. -/
def sampleBackendOk : DockerBackend :=
  { createResult := .ok "cid0123456789"
    startResult := .ok ()
    waitOutcome := .exited 0 }

/-- Sample container-inspect oracle: only the container `cafebabe` exists;
it is attached to the default bridge plus the compose network `mynet`. -/
def sampleInspect : String → Option InspectInfo :=
  fun h => if h = "cafebabe" then some { networks := ["bridge", "mynet"] } else none

/-- Folding env-var assignments into a map from the left is lookup of the
last matching entry: the result at key `k` is the value of the last entry
named `k`, and the base map's value when no entry is named `k`. -/
theorem foldl_insert_apply (l : List EnvVarPb) (base : EnvMap) (k : String) :
    (l.foldl (fun m ev => m.insert ev.name ev.getValue) base) k =
    (match l.reverse.find? (fun ev => ev.name == k) with
     | some ev => some ev.getValue
     | none => base k) := by
  induction l generalizing base with
  | nil => simp
  | cons e rest ih =>
    simp only [List.foldl_cons, List.reverse_cons, List.find?_append]
    rw [ih]
    cases h : rest.reverse.find? (fun ev => ev.name == k) with
    | some ev => simp [Option.or]
    | none =>
      simp only [Option.or]
      by_cases hk : e.name = k
      · subst hk
        simp [List.find?, EnvMap.insert]
      · have hbeq : (e.name == k) = false := by simp [hk]
        simp [List.find?, hbeq, EnvMap.insert, Ne.symm hk]

/-- The nested per-container-override fold of `RunJob`'s merge equals one
fold over the flattened entry list. -/
theorem mergeRunEnv_eq_flat (jobEnv : EnvMap) (o : RunJobOverrides) :
    mergeRunEnv jobEnv (some o) =
    (overrideEntries o).foldl (fun m ev => m.insert ev.name ev.getValue) jobEnv := by
  show o.containerOverrides.foldl _ jobEnv = _
  unfold overrideEntries
  induction o.containerOverrides generalizing jobEnv with
  | nil => rfl
  | cons co rest ih =>
    simp only [List.foldl_cons, List.flatMap_cons, List.foldl_append]
    exact ih _

/-- Pointwise characterisation of the `RunJob` env merge: the merged map at
`k` is the last override assignment to `k` when one exists, and the job's
default otherwise. -/
theorem mergeRunEnv_apply (jobEnv : EnvMap) (o : RunJobOverrides) (k : String) :
    mergeRunEnv jobEnv (some o) k =
    (match lastOverride o k with
     | some ev => some ev.getValue
     | none => jobEnv k) := by
  rw [mergeRunEnv_eq_flat]
  exact foldl_insert_apply _ _ _

/-- The conditional fold of `protoToJob` (skip entries with empty value)
equals the unconditional fold over the filtered entry list. -/
theorem foldl_condInsert_eq_filter (l : List EnvVarPb) (base : EnvMap) :
    l.foldl (fun m ev => if ev.getValue != "" then m.insert ev.name ev.getValue else m) base
    = (l.filter (fun ev => ev.getValue != "")).foldl
        (fun m ev => m.insert ev.name ev.getValue) base := by
  induction l generalizing base with
  | nil => rfl
  | cons e rest ih =>
    cases h : e.getValue != "" with
    | false =>
      simp only [List.foldl_cons, List.filter_cons, h, Bool.false_eq_true,
        if_false]
      exact ih base
    | true =>
      simp only [List.foldl_cons, List.filter_cons, h, if_true]
      exact ih _

/-- Claim C3: for every execution whose status is not RUNNING,
`cancelExecution` returns a FailedPrecondition error and both the
execution and the store are completely unchanged. -/
theorem c3_cancelNonRunning_failedPrecondition
    (cancelFn : Execution → Except String Unit) (s : Store) (name : String)
    (ex : Execution) (now : Nat)
    (hget : s.executions name = some ex) (hnr : ex.status ≠ .running) :
    cancelExecution cancelFn s name now =
      (.error ⟨.failedPrecondition,
        "execution is not running: " ++ ex.status.toString⟩, s) := by
  unfold cancelExecution
  rw [hget]
  simp [hnr]

/-- Claim C3 witness: cancelling the already-succeeded sample execution
yields FailedPrecondition and leaves the store untouched. -/
theorem c3_cancelNonRunning_failedPrecondition_witness :
    cancelExecution SubprocessExecutor.cancel sampleStoreSucceeded
        sampleSucceededExec.name 42 =
      (.error ⟨.failedPrecondition, "execution is not running: SUCCEEDED"⟩,
        sampleStoreSucceeded) := by
  have h := c3_cancelNonRunning_failedPrecondition SubprocessExecutor.cancel
    sampleStoreSucceeded sampleSucceededExec.name sampleSucceededExec 42 rfl
    (by decide)
  rw [h]
  rfl

/-- Claim C4: `runJob` on a job name not registered in the store returns
NotFound, creates no execution, and leaves the store exactly as it was
(and hands no task to the executor). -/
theorem c4_runJob_notFound (s : Store) (reqName : String)
    (overrides : Option RunJobOverrides) (executionID : String) (now : Nat)
    (habs : s.jobs reqName = none) :
    runJob s reqName overrides executionID now =
      (.error ⟨.notFound, "job not found: " ++ reqName⟩, s, none) := by
  unfold runJob Store.getJob
  rw [habs]

/-- Claim C4 witness: running a never-registered name on the sample store
returns NotFound with the store unchanged. -/
theorem c4_runJob_notFound_witness :
    runJob sampleStoreRunning "projects/p/locations/r/jobs/ghost" none
        "id000001" 99 =
      (.error ⟨.notFound, "job not found: projects/p/locations/r/jobs/ghost"⟩,
        sampleStoreRunning, none) :=
  c4_runJob_notFound sampleStoreRunning "projects/p/locations/r/jobs/ghost"
    none "id000001" 99 rfl

/-- Claim C7: the subprocess executor's run on an execution whose job has an
empty command vector immediately fails the execution with the message
`no command specified`, failed count 1 and completion time set; the
result does not depend on the spawn outcome or the environment, i.e. no
subprocess is consulted. -/
theorem c7_subprocess_emptyCommand_failed (ex : Execution)
    (env env2 : EnvMap) (now : Nat) (r r2 : CmdRunResult)
    (hcmd : ex.job.command = []) :
    SubprocessExecutor.run ex env now r =
      { ex with
          status := .failed
          errorMessage := "no command specified"
          failedCount := 1
          completionTime := some now }
    ∧ SubprocessExecutor.run ex env now r = SubprocessExecutor.run ex env2 now r2 := by
  unfold SubprocessExecutor.run
  rw [if_pos hcmd, if_pos hcmd]
  exact ⟨rfl, rfl⟩

/-- Claim C7 witness: the command-less sample execution fails immediately,
identically for a successful and for a failing spawn oracle. -/
theorem c7_subprocess_emptyCommand_failed_witness :
    SubprocessExecutor.run sampleEmptyCmdExec EnvMap.empty 11 (.ok ()) =
      { sampleEmptyCmdExec with
          status := .failed
          errorMessage := "no command specified"
          failedCount := 1
          completionTime := some 11 }
    ∧ SubprocessExecutor.run sampleEmptyCmdExec EnvMap.empty 11 (.ok ()) =
      SubprocessExecutor.run sampleEmptyCmdExec EnvMap.empty 11 (.error "boom") :=
  c7_subprocess_emptyCommand_failed sampleEmptyCmdExec EnvMap.empty
    EnvMap.empty 11 (.ok ()) (.error "boom") rfl

/-- Claim C9: saving a job makes it retrievable unchanged under its name;
deleting an existing name succeeds and makes a subsequent lookup report
not-found; deleting an absent name reports not-found. -/
theorem c9_store_job_roundtrip (s : Store) (J : Job) (name : String) :
    ((s.saveJob J).getJob J.name = .ok J)
    ∧ ((s.jobs name).isSome = true →
        ∃ s2, s.deleteJob name = .ok s2
          ∧ s2.getJob name = .error ("job not found: " ++ name))
    ∧ (s.jobs name = none →
        s.deleteJob name = .error ("job not found: " ++ name)) := by
  refine ⟨?_, ?_, ?_⟩
  · unfold Store.saveJob Store.getJob
    simp
  · intro hsome
    cases h : s.jobs name with
    | none => rw [h] at hsome; simp at hsome
    | some j =>
      refine ⟨{ s with jobs := fun n => if n = name then none else s.jobs n },
        ?_, ?_⟩
      · unfold Store.deleteJob
        rw [h]
      · unfold Store.getJob
        simp
  · intro habs
    unfold Store.deleteJob
    rw [habs]

/-- Claim C9 witness: the round trip evaluated on the sample job over the
empty store. -/
theorem c9_store_job_roundtrip_witness :
    ((Store.new.saveJob sampleJob).getJob sampleJob.name = .ok sampleJob)
    ∧ (∃ s2, (Store.new.saveJob sampleJob).deleteJob sampleJob.name = .ok s2
        ∧ s2.getJob sampleJob.name =
            .error ("job not found: " ++ sampleJob.name))
    ∧ (Store.new.deleteJob sampleJob.name =
        .error ("job not found: " ++ sampleJob.name)) := by
  have h1 := (c9_store_job_roundtrip Store.new sampleJob sampleJob.name).1
  have h2 := (c9_store_job_roundtrip (Store.new.saveJob sampleJob) sampleJob
    sampleJob.name).2.1 (by rfl)
  have h3 := (c9_store_job_roundtrip Store.new sampleJob sampleJob.name).2.2 rfl
  exact ⟨h1, h2, h3⟩

/-- Claim C1 counterexample: on a RUNNING execution with the subprocess
executor, `cancelExecution` does NOT surface the executor's unsupported
error and does NOT leave the execution unchanged — the call returns a
successful operation and the stored execution is now CANCELLED with its
completion time set, refuting the claim at this concrete input. -/
theorem c1_processCancel_counterexample :
    (cancelExecution SubprocessExecutor.cancel sampleStoreRunning
        sampleRunningExec.name 42).1.isOk = true
    ∧ ((cancelExecution SubprocessExecutor.cancel sampleStoreRunning
        sampleRunningExec.name 42).2.executions sampleRunningExec.name).map
          Execution.status = some .cancelled
    ∧ ((cancelExecution SubprocessExecutor.cancel sampleStoreRunning
        sampleRunningExec.name 42).2.executions sampleRunningExec.name).map
          Execution.completionTime = some (some 42) := by
  refine ⟨rfl, ?_, ?_⟩ <;> rfl

/-- Claim C1 (amended): on a RUNNING execution, `cancelExecution` with the
subprocess executor ignores the executor's unsupported-cancel error (it
is only logged): the call returns a successful done operation and the
execution is marked CANCELLED with completion time set; all its other
fields are unchanged. -/
theorem c1_processCancel_amended (s : Store) (name : String) (ex : Execution)
    (now : Nat) (hget : s.executions name = some ex)
    (hname : ex.name = name) (hrun : ex.status = .running) :
    cancelExecution SubprocessExecutor.cancel s name now =
      (.ok { name := name, done := true, metadata := none,
              response := some (executionToProto
                { ex with status := .cancelled, completionTime := some now }) },
        s.saveExecution { ex with status := .cancelled, completionTime := some now }) := by
  unfold cancelExecution
  rw [hget]
  simp [hrun]

/-- Claim C1 amended witness: the amended behaviour evaluated on the sample
running execution. -/
theorem c1_processCancel_amended_witness :
    cancelExecution SubprocessExecutor.cancel sampleStoreRunning
        sampleRunningExec.name 42 =
      (.ok { name := sampleRunningExec.name, done := true, metadata := none,
              response := some (executionToProto
                { sampleRunningExec with
                    status := .cancelled, completionTime := some 42 }) },
        sampleStoreRunning.saveExecution
          { sampleRunningExec with
              status := .cancelled, completionTime := some 42 }) :=
  c1_processCancel_amended sampleStoreRunning sampleRunningExec.name
    sampleRunningExec 42 rfl rfl rfl

/-- Claim C5: `runJob` on a registered job persists the freshly allocated
execution before returning, so that at return it is retrievable under
`<job>/executions/<id>` with status RUNNING, unset completion time and
start time `now`; the operation echoes that pre-completion snapshot with
`done = false`, and the executor's run is handed back as an unevaluated
detached task — `runJob` never waits on it. -/
theorem c5_runJob_persists_running (s : Store) (reqName : String)
    (overrides : Option RunJobOverrides) (executionID : String) (now : Nat)
    (job : Job) (hjob : s.jobs reqName = some job) :
    ∃ ex : Execution,
      (runJob s reqName overrides executionID now).2.1.getExecution
        (reqName ++ "/executions/" ++ executionID) = .ok ex
      ∧ ex.status = .running
      ∧ ex.completionTime = none
      ∧ ex.startTime = now
      ∧ ex.succeededCount = 0
      ∧ ex.failedCount = 0
      ∧ ex.job = job
      ∧ (runJob s reqName overrides executionID now).1 =
          .ok { name := reqName ++ "/executions/" ++ executionID, done := false,
                metadata := some (executionToProto ex), response := none }
      ∧ (runJob s reqName overrides executionID now).2.2 =
          some ⟨ex, mergeRunEnv job.env overrides⟩ := by
  refine ⟨{ name := reqName ++ "/executions/" ++ executionID
            job := job
            status := .running
            startTime := now
            completionTime := none
            succeededCount := 0
            failedCount := 0
            errorMessage := ""
            containerID := "" }, ?_, rfl, rfl, rfl, rfl, rfl, rfl, ?_, ?_⟩
  · unfold runJob Store.getJob Store.saveExecution Store.getExecution
    rw [hjob]
    simp
  · unfold runJob Store.getJob
    rw [hjob]
  · unfold runJob Store.getJob
    rw [hjob]

/-- Claim C5 witness: running the registered sample job persists a RUNNING,
uncompleted execution that is immediately retrievable. -/
theorem c5_runJob_persists_running_witness :
    ∃ ex : Execution,
      (runJob (Store.new.saveJob sampleJob) sampleJob.name none "run00001"
          10).2.1.getExecution (sampleJob.name ++ "/executions/" ++ "run00001") =
        .ok ex
      ∧ ex.status = .running
      ∧ ex.completionTime = none
      ∧ ex.startTime = 10
      ∧ ex.succeededCount = 0
      ∧ ex.failedCount = 0
      ∧ ex.job = sampleJob
      ∧ (runJob (Store.new.saveJob sampleJob) sampleJob.name none "run00001"
          10).1 =
          .ok { name := sampleJob.name ++ "/executions/" ++ "run00001",
                done := false, metadata := some (executionToProto ex),
                response := none }
      ∧ (runJob (Store.new.saveJob sampleJob) sampleJob.name none "run00001"
          10).2.2 = some ⟨ex, mergeRunEnv sampleJob.env none⟩ :=
  c5_runJob_persists_running (Store.new.saveJob sampleJob) sampleJob.name none
    "run00001" 10 sampleJob rfl

/-- Claim C6: the per-run env merge is override-wins and idempotent: the
merged map agrees with the last override assignment where one exists and
with the job default elsewhere, hence it keeps every default key and
every override key with the override's value winning on collision, and
merging the same overrides again over the result changes nothing. -/
theorem c6_mergeEnv_overrideWins_idempotent (jobEnv : EnvMap)
    (o : RunJobOverrides) :
    (∀ k, mergeRunEnv jobEnv (some o) k =
      (match lastOverride o k with
       | some ev => some ev.getValue
       | none => jobEnv k))
    ∧ (∀ k, (jobEnv k).isSome = true →
        (mergeRunEnv jobEnv (some o) k).isSome = true)
    ∧ (∀ ev, ev ∈ overrideEntries o →
        (mergeRunEnv jobEnv (some o) ev.name).isSome = true)
    ∧ mergeRunEnv (mergeRunEnv jobEnv (some o)) (some o) =
        mergeRunEnv jobEnv (some o) := by
  refine ⟨mergeRunEnv_apply jobEnv o, ?_, ?_, ?_⟩
  · intro k hk
    rw [mergeRunEnv_apply]
    cases h : lastOverride o k with
    | some ev => simp
    | none => simpa using hk
  · intro ev hev
    rw [mergeRunEnv_apply]
    have : (lastOverride o ev.name).isSome = true := by
      unfold lastOverride
      rw [List.find?_isSome]
      exact ⟨ev, List.mem_reverse.mpr hev, by simp⟩
    cases h : lastOverride o ev.name with
    | some ev2 => simp
    | none => rw [h] at this; simp at this
  · funext k
    rw [mergeRunEnv_apply, mergeRunEnv_apply]
    cases h : lastOverride o k <;> simp [h]

/-- Claim C6 witness: overrides `A := 2` over defaults `A := 1, B := 1`
yield `A := 2, B := 1`, and merging the same overrides again over the
result is the identity. -/
theorem c6_mergeEnv_overrideWins_idempotent_witness :
    mergeRunEnv ((EnvMap.empty.insert "A" "1").insert "B" "1")
        (some ⟨[⟨[⟨"A", some "2"⟩]⟩]⟩) "A" = some "2"
    ∧ mergeRunEnv ((EnvMap.empty.insert "A" "1").insert "B" "1")
        (some ⟨[⟨[⟨"A", some "2"⟩]⟩]⟩) "B" = some "1"
    ∧ mergeRunEnv
        (mergeRunEnv ((EnvMap.empty.insert "A" "1").insert "B" "1")
          (some ⟨[⟨[⟨"A", some "2"⟩]⟩]⟩))
        (some ⟨[⟨[⟨"A", some "2"⟩]⟩]⟩) =
      mergeRunEnv ((EnvMap.empty.insert "A" "1").insert "B" "1")
        (some ⟨[⟨[⟨"A", some "2"⟩]⟩]⟩) := by
  have h := c6_mergeEnv_overrideWins_idempotent
    ((EnvMap.empty.insert "A" "1").insert "B" "1") ⟨[⟨[⟨"A", some "2"⟩]⟩]⟩
  refine ⟨?_, ?_, h.2.2.2⟩
  · rw [h.1 "A"]
    rfl
  · rw [h.1 "B"]
    rfl

/-- Claim C8: network resolution follows the three-case policy: `"host"`
resolves to host networking (the empty resolved name); empty or `"auto"`
self-detects via the own hostname's container, choosing the first
attached network not named bridge/host/none, else any attached network,
and resolving to host networking when hostname lookup or inspection
fails; any other configured value is used verbatim. -/
theorem c8_resolveNetwork_policy (hostname : Option String)
    (inspect : String → Option InspectInfo) (configured : String) :
    resolveNetwork hostname inspect "host" = ""
    ∧ ((configured = "" ∨ configured = "auto") →
        resolveNetwork hostname inspect configured =
          detectOwnNetwork hostname inspect)
    ∧ (hostname = none → detectOwnNetwork hostname inspect = "")
    ∧ (∀ h, hostname = some h → inspect h = none →
        detectOwnNetwork hostname inspect = "")
    ∧ (∀ h info, hostname = some h → inspect h = some info →
        detectOwnNetwork hostname inspect =
          (match info.networks.find? nonDefaultNet with
           | some n => n
           | none => info.networks.headD ""))
    ∧ (configured ≠ "host" → configured ≠ "" → configured ≠ "auto" →
        resolveNetwork hostname inspect configured = configured) := by
  refine ⟨rfl, ?_, ?_, ?_, ?_, ?_⟩
  · rintro (rfl | rfl) <;> rfl
  · rintro rfl
    rfl
  · rintro h rfl hi
    simp only [detectOwnNetwork, hi]
  · rintro h info rfl hi
    simp only [detectOwnNetwork, hi]
  · intro h1 h2 h3
    unfold resolveNetwork
    rw [if_neg h1, if_neg (by simp [h2, h3])]

/-- Claim C8 witness: the four policy outcomes evaluated concretely against
the sample inspect oracle (own container `cafebabe` on networks
`["bridge", "mynet"]`): host mode, auto-detection picking the first
non-default network, fallback to host when inspection fails, and a
verbatim explicit name. -/
theorem c8_resolveNetwork_policy_witness :
    resolveNetwork (some "cafebabe") sampleInspect "host" = ""
    ∧ resolveNetwork (some "cafebabe") sampleInspect "auto" = "mynet"
    ∧ resolveNetwork none sampleInspect "" = ""
    ∧ resolveNetwork (some "nothere") sampleInspect "auto" = ""
    ∧ resolveNetwork (some "cafebabe") sampleInspect "an-explicit-net" =
        "an-explicit-net" := by
  refine ⟨(c8_resolveNetwork_policy (some "cafebabe") sampleInspect "host").1,
    ?_, ?_, ?_, ?_⟩
  · rw [(c8_resolveNetwork_policy (some "cafebabe") sampleInspect "auto").2.1
      (Or.inr rfl)]
    rw [(c8_resolveNetwork_policy (some "cafebabe") sampleInspect
      "auto").2.2.2.2.1 "cafebabe" ⟨["bridge", "mynet"]⟩ rfl rfl]
    rfl
  · rw [(c8_resolveNetwork_policy none sampleInspect "").2.1 (Or.inl rfl)]
    exact (c8_resolveNetwork_policy none sampleInspect "").2.2.1 rfl
  · rw [(c8_resolveNetwork_policy (some "nothere") sampleInspect "auto").2.1
      (Or.inr rfl)]
    exact (c8_resolveNetwork_policy (some "nothere") sampleInspect
      "auto").2.2.2.1 "nothere" rfl rfl
  · exact (c8_resolveNetwork_policy (some "cafebabe") sampleInspect
      "an-explicit-net").2.2.2.2.2 (by decide) (by decide) (by decide)

/-- Claim C10: `createJob` on a fresh name stores the job translated by
`protoToJob`, whose default environment contains exactly the request
container's env entries with non-empty `GetValue()`: the stored value at
any key is the last such entry's value, and keys whose entries all have
empty values are absent. -/
theorem c10_protoToJob_dropsEmptyEnv (s : Store) (parent jobId : String)
    (pb : JobPb) (et : ExecutionTemplatePb) (tt : TaskTemplatePb)
    (c : ContainerPb) (rest : List ContainerPb)
    (hpb : pb.template = some et) (het : et.template = some tt)
    (htt : tt.containers = c :: rest)
    (habs : s.jobs (parent ++ "/jobs/" ++ jobId) = none) :
    (createJob s parent jobId pb).1.isOk = true
    ∧ ∃ job, (createJob s parent jobId pb).2.jobs
        (parent ++ "/jobs/" ++ jobId) = some job
      ∧ job.image = c.image
      ∧ job.command = c.command
      ∧ ∀ k, job.env k =
          ((c.env.filter (fun ev => ev.getValue != "")).reverse.find?
            (fun ev => ev.name == k)).map EnvVarPb.getValue := by
  constructor
  · simp only [createJob, habs]
    rfl
  · refine ⟨protoToJob (parent ++ "/jobs/" ++ jobId) pb, ?_, ?_, ?_, ?_⟩
    · have hname : (protoToJob (parent ++ "/jobs/" ++ jobId) pb).name =
          parent ++ "/jobs/" ++ jobId := by
        simp only [protoToJob, hpb, het, htt]
      simp only [createJob, habs, Store.saveJob]
      simp [hname]
    · simp only [protoToJob, hpb, het, htt]
    · simp only [protoToJob, hpb, het, htt]
    · intro k
      simp only [protoToJob, hpb, het, htt]
      show (c.env.foldl
        (fun m ev => if ev.getValue != "" then m.insert ev.name ev.getValue else m)
        EnvMap.empty) k = _
      rw [foldl_condInsert_eq_filter, foldl_insert_apply]
      cases h : (c.env.filter (fun ev => ev.getValue != "")).reverse.find?
        (fun ev => ev.name == k) with
      | some ev => rfl
      | none => rfl

/-- Claim C10 witness: a create request whose container carries entries
`KEEP := "1"`, `DROP := ""` and a ValueSource-only `SRC` stores a job
whose env keeps exactly `KEEP`. -/
theorem c10_protoToJob_dropsEmptyEnv_witness :
    (createJob Store.new "projects/p/locations/r" "envjob"
        ⟨some ⟨some ⟨[⟨"img", ["run"],
          [⟨"KEEP", some "1"⟩, ⟨"DROP", some ""⟩, ⟨"SRC", none⟩]⟩]⟩⟩⟩).1.isOk
      = true
    ∧ ∃ job, (createJob Store.new "projects/p/locations/r" "envjob"
        ⟨some ⟨some ⟨[⟨"img", ["run"],
          [⟨"KEEP", some "1"⟩, ⟨"DROP", some ""⟩, ⟨"SRC", none⟩]⟩]⟩⟩⟩).2.jobs
        ("projects/p/locations/r" ++ "/jobs/" ++ "envjob") = some job
      ∧ job.image = "img"
      ∧ job.command = ["run"]
      ∧ job.env "KEEP" = some "1"
      ∧ job.env "DROP" = none
      ∧ job.env "SRC" = none := by
  have h := c10_protoToJob_dropsEmptyEnv Store.new "projects/p/locations/r"
    "envjob"
    ⟨some ⟨some ⟨[⟨"img", ["run"],
      [⟨"KEEP", some "1"⟩, ⟨"DROP", some ""⟩, ⟨"SRC", none⟩]⟩]⟩⟩⟩
    ⟨some ⟨[⟨"img", ["run"],
      [⟨"KEEP", some "1"⟩, ⟨"DROP", some ""⟩, ⟨"SRC", none⟩]⟩]⟩⟩
    ⟨[⟨"img", ["run"],
      [⟨"KEEP", some "1"⟩, ⟨"DROP", some ""⟩, ⟨"SRC", none⟩]⟩]⟩
    ⟨"img", ["run"], [⟨"KEEP", some "1"⟩, ⟨"DROP", some ""⟩, ⟨"SRC", none⟩]⟩
    [] rfl rfl rfl rfl
  obtain ⟨hok, job, hjob, him, hcmd, henv⟩ := h
  refine ⟨hok, job, hjob, him, hcmd, ?_, ?_, ?_⟩
  · rw [henv "KEEP"]
    rfl
  · rw [henv "DROP"]
    rfl
  · rw [henv "SRC"]
    rfl

/-- Claim C2: for an execution entering a run with zero counters (as the
dispatcher creates them), every code path of both executors' run returns
with a terminal status and the completion timestamp set to the completion
instant, and the resulting execution satisfies the invariant: exactly one
of the succeeded / failed / cancelled counters equals 1 once the status
is terminal, and the completion timestamp is set iff the status is
terminal. -/
theorem c2_executorRun_invariant (ex : Execution) (env : EnvMap) (now : Nat)
    (cmdResult : CmdRunResult) (b : DockerBackend)
    (hs : ex.succeededCount = 0) (hf : ex.failedCount = 0) :
    (isTerminal (SubprocessExecutor.run ex env now cmdResult).status = true
     ∧ (SubprocessExecutor.run ex env now cmdResult).completionTime = some now
     ∧ execInvariant (SubprocessExecutor.run ex env now cmdResult))
    ∧ (isTerminal (DockerExecutor.run ex env b now).status = true
     ∧ (DockerExecutor.run ex env b now).completionTime = some now
     ∧ execInvariant (DockerExecutor.run ex env b now)) := by
  constructor
  · unfold SubprocessExecutor.run
    by_cases hcmd : ex.job.command = []
    · rw [if_pos hcmd]
      simp [execInvariant, executionToProto, isTerminal, hs, hf]
    · rw [if_neg hcmd]
      cases cmdResult <;>
        simp [execInvariant, executionToProto, isTerminal, hs, hf]
  · unfold DockerExecutor.run
    obtain ⟨cr, sr, wo⟩ := b
    cases cr with
    | error e =>
      simp [execInvariant, executionToProto, isTerminal, hs, hf]
    | ok cid =>
      cases sr with
      | error e =>
        simp [execInvariant, executionToProto, isTerminal, hs, hf]
      | ok u =>
        cases wo with
        | waitErr e =>
          simp [execInvariant, executionToProto, isTerminal, hs, hf]
        | exited code =>
          by_cases hc : code = 0 <;>
            simp [hc, execInvariant, executionToProto, isTerminal, hs, hf]

/-- Claim C2 witness: the invariant evaluated on the sample running
execution through a successful subprocess run and through the happy-path
docker backend. -/
theorem c2_executorRun_invariant_witness :
    (isTerminal (SubprocessExecutor.run sampleRunningExec EnvMap.empty 21
        (.ok ())).status = true
     ∧ (SubprocessExecutor.run sampleRunningExec EnvMap.empty 21
        (.ok ())).completionTime = some 21
     ∧ execInvariant (SubprocessExecutor.run sampleRunningExec EnvMap.empty 21
        (.ok ())))
    ∧ (isTerminal (DockerExecutor.run sampleRunningExec EnvMap.empty
        sampleBackendOk 21).status = true
     ∧ (DockerExecutor.run sampleRunningExec EnvMap.empty
        sampleBackendOk 21).completionTime = some 21
     ∧ execInvariant (DockerExecutor.run sampleRunningExec EnvMap.empty
        sampleBackendOk 21)) :=
  c2_executorRun_invariant sampleRunningExec EnvMap.empty 21 (.ok ())
    sampleBackendOk rfl rfl

end CloudRunJobsEmu
